import Mathlib

/-!
Verification development for a natural-language-to-SQL assistant.
The Python sources (`ai_utils.py`, `db_utils.py`, `ui.py`) are shallowly
embedded below: pure string manipulation is translated to executable Lean
functions over `List Char`/`String`; external collaborators (the OpenAI
client, the Azure search service, the SQLAlchemy engine) are passed in as
function arguments; Python exceptions are modelled with `Except`.
-/

/-! ## Python string primitives (semantics of `str` methods and `re` character classes) -/

/-- Python's whitespace set used by `str.strip` and the regex class `\s`:
space, tab, newline, carriage return, vertical tab, form feed. -/
def pyIsSpace (c : Char) : Bool :=
  c = ' ' || c = '\t' || c = '\n' || c = '\r' || c = Char.ofNat 11 || c = Char.ofNat 12

/-- The regex class `\w` (ASCII): letters, digits, underscore. -/
def isWordChar (c : Char) : Bool := c.isAlpha || c.isDigit || c = '_'

/-- First character of an identifier in the source's regexes: `[A-Za-z_]`. -/
def isIdentStart (c : Char) : Bool := c.isAlpha || c = '_'

/-- The class `[\w\.]` used for the table group of `_extract_tables_from_sql`. -/
def isG2Char (c : Char) : Bool := isWordChar c || c = '.'

/-- `str.lower` on character data. -/
def lowerL (l : List Char) : List Char := l.map Char.toLower

/-- `str.lstrip()` on character data. -/
def lstripL (l : List Char) : List Char := l.dropWhile pyIsSpace

/-- `str.strip()` on character data. -/
def stripL (l : List Char) : List Char :=
  ((l.dropWhile pyIsSpace).reverse.dropWhile pyIsSpace).reverse

/-- `str.strip()` for `String`. -/
def pyStrip (s : String) : String := String.mk (stripL s.data)

/-- `str.lower()` for `String`. -/
def pyLower (s : String) : String := String.mk (lowerL s.data)

/-- `str.lstrip()` for `String`. -/
def pyLStrip (s : String) : String := String.mk (lstripL s.data)

/-- `str.rstrip(chars)` on character data: drop trailing characters from a set. -/
def rstripSetL (cs : List Char) (l : List Char) : List Char :=
  (l.reverse.dropWhile (fun c => cs.contains c)).reverse

/-- `str.strip(chars)` on character data: drop characters of a set from both ends. -/
def stripSetL (cs : List Char) (l : List Char) : List Char :=
  ((l.dropWhile (fun c => cs.contains c)).reverse.dropWhile (fun c => cs.contains c)).reverse

/-- List prefix test (used to embed `str.startswith` and substring search). -/
def isPre : List Char → List Char → Bool
  | [], _ => true
  | _ :: _, [] => false
  | a :: as, b :: bs => a = b && isPre as bs

/-- `str.startswith(pre)`. -/
def pyStartsWith (s pre : String) : Bool := isPre pre.data s.data

/-- Python's `needle in haystack` substring test, on character data. -/
def containsSubL (n : List Char) : List Char → Bool
  | [] => n.isEmpty
  | c :: cs => isPre n (c :: cs) || containsSubL n cs

/-- Python's `sub in s` for `String`. -/
def containsSub (s sub : String) : Bool := containsSubL sub.data s.data

/-- Python slicing `s[:n]` for strings. -/
def pyTake (s : String) (n : Nat) : String := String.mk (s.data.take n)

/-- `sep.join(xs)`. -/
def pyJoin (sep : String) : List String → String
  | [] => ""
  | [x] => x
  | x :: y :: ys => x ++ sep ++ pyJoin sep (y :: ys)

/-- `str.replace(old, new)` where `old` is a single character. -/
def replaceCharL (c : Char) (rep : List Char) : List Char → List Char
  | [] => []
  | x :: xs => if x = c then rep ++ replaceCharL c rep xs else x :: replaceCharL c rep xs

/-- `list(dict.fromkeys(xs))`: deduplicate keeping first occurrences. -/
def pyDedupAux (seen : List String) : List String → List String
  | [] => []
  | x :: xs => if seen.contains x then pyDedupAux seen xs else x :: pyDedupAux (x :: seen) xs

/-- Order-preserving deduplication, as `list(dict.fromkeys(xs))`. -/
def pyDedup (l : List String) : List String := pyDedupAux [] l

/-- Lexicographic comparison of character data by code point, as Python string `<=`. -/
def charListLe : List Char → List Char → Bool
  | [], _ => true
  | _ :: _, [] => false
  | a :: as, b :: bs =>
    if a.toNat < b.toNat then true else if b.toNat < a.toNat then false else charListLe as bs

/-- Python `<=` on strings. -/
def strLe (a b : String) : Bool := charListLe a.data b.data

/-- Insertion step of the sort modelling Python's `sorted`. -/
def pyInsert (a : String) : List String → List String
  | [] => [a]
  | b :: bs => if strLe a b then a :: b :: bs else b :: pyInsert a bs

/-- Python's `sorted` on a list of strings (by code point). -/
def pySorted : List String → List String
  | [] => []
  | x :: xs => pyInsert x (pySorted xs)

/-! ## `_extract_tables_from_sql` (ai_utils.py)

The source scans the SQL with the regex
`\b(from|join)\s+([A-Za-z_][\w\.]*)(?:\s+as)?\s*[A-Za-z_][\w]*?` (case-insensitive)
using `re.finditer` and collects group 2.  The embedding below reproduces the
backtracking semantics of that pattern: group 2 is matched greedily and shrunk
until the (mandatory) trailing alias atom `[A-Za-z_]` can match; the lazy
`[\w]*?` at the end of the pattern always matches the empty string because
nothing follows it. -/

/-- Tail of the pattern after group 2 when the optional `\s+as` is taken:
`\s+as\s*[A-Za-z_]`.  Returns the remainder after the matched alias character. -/
def tailWithAs (rem : List Char) : Option (List Char) :=
  let sp := rem.takeWhile pyIsSpace
  if sp.isEmpty then none
  else
    match rem.dropWhile pyIsSpace with
    | a :: s :: rest =>
      if a.toLower = 'a' && s.toLower = 's' then
        match rest.dropWhile pyIsSpace with
        | x :: rest2 => if isIdentStart x then some rest2 else none
        | [] => none
      else none
    | _ => none

/-- Tail of the pattern after group 2 when the optional `\s+as` is skipped:
`\s*[A-Za-z_]`.  Returns the remainder after the matched alias character. -/
def tailNoAs (rem : List Char) : Option (List Char) :=
  match rem.dropWhile pyIsSpace with
  | x :: rest => if isIdentStart x then some rest else none
  | [] => none

/-- The regex tail `(?:\s+as)?\s*[A-Za-z_][\w]*?`: the greedy optional group is
tried first, as Python's engine does. -/
def tailMatch (rem : List Char) : Option (List Char) :=
  match tailWithAs rem with
  | some r => some r
  | none => tailNoAs rem

/-- Backtracking over the greedy group 2 `[A-Za-z_][\w\.]*`: try prefixes of the
maximal run from longest to shortest (length at least 1) until the tail of the
pattern matches.  Returns (group 2, remainder after the whole match). -/
def tryG2Lens (g2 : List Char) (after : List Char) : Nat → Option (List Char × List Char)
  | 0 => none
  | Nat.succ k =>
    match tailMatch (g2.drop (Nat.succ k) ++ after) with
    | some rest => some (g2.take (Nat.succ k), rest)
    | none => tryG2Lens g2 after k

/-- Attempt the whole pattern at the current position (word boundary already
checked by the caller): keyword `from`/`join`, `\s+`, then group 2 and tail. -/
def matchFromJoin (cs : List Char) : Option (List Char × List Char) :=
  match cs with
  | k1 :: k2 :: k3 :: k4 :: rest =>
    if ([k1.toLower, k2.toLower, k3.toLower, k4.toLower] = ['f', 'r', 'o', 'm']
        || [k1.toLower, k2.toLower, k3.toLower, k4.toLower] = ['j', 'o', 'i', 'n']) then
      let sp := rest.takeWhile pyIsSpace
      if sp.isEmpty then none
      else
        match rest.dropWhile pyIsSpace with
        | c :: tl =>
          if isIdentStart c then
            let g2 := c :: tl.takeWhile isG2Char
            let after := tl.dropWhile isG2Char
            tryG2Lens g2 after g2.length
          else none
        | [] => none
    else none
  | _ => none

/-- `re.finditer` scan: try the pattern at each position that is at a word
boundary, advancing past each match (non-overlapping) or by one character.
Every successful match ends on the alias character (a word character), so the
boundary flag after a match is `false`. -/
def extractGo : Nat → Bool → List Char → List (List Char)
  | 0, _, _ => []
  | Nat.succ _, _, [] => []
  | Nat.succ f, atB, c :: cs =>
    match (if atB then matchFromJoin (c :: cs) else none) with
    | some (tbl, rest) => tbl :: extractGo f false rest
    | none => extractGo f (!isWordChar c) cs

/-- `_extract_tables_from_sql` from ai_utils.py: regex scan, quote stripping
(`t.strip('"`[]')`), and order-preserving deduplication. -/
def extract_tables_from_sql (sql : String) : List String :=
  let out := (extractGo (sql.data.length + 1) true sql.data).map
    (fun t => String.mk (stripSetL ['"', Char.ofNat 96, '[', ']'] t))
  pyDedup out

/-! ## `validate_sql_against_db` (ai_utils.py) -/

/-- `validate_sql_against_db` from ai_utils.py: for the sqlite dialect only,
every extracted table (schema qualifier stripped via `t.split(".")[-1]`) must
be a key of the live schema map; otherwise an error message listing the
missing tables and the first 50 available tables (sorted) is returned. -/
def validate_sql_against_db (sql : String) (table_schemas : List (String × List String))
    (dialect : String) : Option String :=
  if dialect ≠ "sqlite" then none
  else
    let used := extract_tables_from_sql sql
    let missing := used.filterMap (fun t =>
      let t2 := if t.data.contains '.' then (t.splitOn ".").getLast! else t
      if (table_schemas.lookup t2).isSome then none else some t2)
    if missing ≠ [] then
      let available := pyJoin ", " ((pySorted (table_schemas.map Prod.fst)).take 50)
      some ("Missing table(s) in sqlite DB: " ++ pyJoin ", " missing
        ++ ". Available tables include: " ++ available)
    else none

/-! ## `strip_schema_for_sqlite` (ai_utils.py)

The source applies `re.sub(r"\b([A-Za-z_][\w]*)\.([A-Za-z_][\w]*)\b", repl, sql)`
over the whole SQL string, replacing `schema.table` by `table` whenever the
schema is in `known_schemas` and the table is in `sqlite_tables`
(both case-insensitively).  Both identifier groups are maximal runs (no
backtracking is possible against the literal dot / the trailing boundary). -/

/-- Match `\b([A-Za-z_][\w]*)\.([A-Za-z_][\w]*)\b` at the current position
(the left word boundary is checked by the caller).  Returns
(group 1, group 2, remainder). -/
def matchDotted : List Char → Option (List Char × List Char × List Char)
  | [] => none
  | c :: cs =>
    if isIdentStart c then
      let w1 := c :: cs.takeWhile isWordChar
      match cs.dropWhile isWordChar with
      | '.' :: d :: rest =>
        if isIdentStart d then
          some (w1, d :: rest.takeWhile isWordChar, rest.dropWhile isWordChar)
        else none
      | _ => none
    else none

/-- The `re.sub` scan for `strip_schema_for_sqlite`: left-to-right,
non-overlapping, advancing one character when the pattern does not match.
Every match ends on a word character, so the boundary flag after it is
`false`. -/
def subGo (schemas tables : List String) : Nat → Bool → List Char → List Char
  | 0, _, cs => cs
  | Nat.succ _, _, [] => []
  | Nat.succ f, atB, c :: cs =>
    match (if atB then matchDotted (c :: cs) else none) with
    | some (w1, w2, rest) =>
      (if schemas.contains (String.mk (lowerL w1)) && tables.contains (String.mk (lowerL w2))
       then w2 else w1 ++ '.' :: w2) ++ subGo schemas tables f false rest
    | none => c :: subGo schemas tables f (!isWordChar c) cs

/-- `strip_schema_for_sqlite` from ai_utils.py: rewrite `schema.table` to
`table` everywhere in the SQL when the schema is a known schema name and the
table exists in the sqlite table list (comparisons on lowercased names,
skipping empty entries of either list as the source's set comprehensions do). -/
def strip_schema_for_sqlite (sql : String) (known_schemas : List String)
    (sqlite_tables : List String) : String :=
  if sql = "" then sql
  else
    let schema_set := (known_schemas.filter (fun s => s ≠ "")).map pyLower
    let table_set := (sqlite_tables.filter (fun t => t ≠ "")).map pyLower
    String.mk (subGo schema_set table_set (sql.data.length + 1) true sql.data)

/-! ## `build_context` (ai_utils.py) -/

/-- Metadata hit, as the `Hit` dataclass of ai_utils.py. -/
structure Hit where
  id : String
  score : Float
  doc_type : String
  schema_name : Option String
  table_name : Option String
  column_name : Option String
  content : String

/-- The table names carried by hits, in order, skipping falsy (absent or
empty) values — the `relevant_tables` accumulation loop of `build_context`. -/
def hitTableNames (hits : List Hit) : List String :=
  (hits.filterMap (fun h => h.table_name)).filter (fun t => t ≠ "")

/-- The `relevant_tables` list of `build_context`: deduplicated hit tables,
and — only when the dialect is `"sqlite"` — filtered to tables that exist in
the live schema map. -/
def relevant_tables_of (hits : List Hit) (table_schemas : List (String × List String))
    (dialect : String) : List String :=
  let r := pyDedup (hitTableNames hits)
  if dialect = "sqlite" then r.filter (fun t => (table_schemas.lookup t).isSome) else r

/-- The `table_blocks` list of `build_context`: for the first `max_items`
relevant tables, a `- table: columns = ...` line built from the live schema's
columns (`table_schemas.get(t, [])`, first 80 columns), skipped when the
column list is empty. -/
def table_blocks_of (relevant : List String) (table_schemas : List (String × List String))
    (max_items : Nat) : List String :=
  (relevant.take max_items).filterMap (fun t =>
    let cols := (table_schemas.lookup t).getD []
    if cols ≠ [] then
      some ("- " ++ t ++ ": columns = " ++ pyJoin ", " (cols.take 80))
    else none)

/-- `build_context` from ai_utils.py.  Returns `(context_text, known_schemas)`. -/
def build_context (hits : List Hit) (table_schemas : List (String × List String))
    (dialect : String) (max_items : Nat) : String × List String :=
  let known_schemas := pySorted (pyDedup (hits.filterMap (fun h =>
    let s := pyStrip (h.schema_name.getD "")
    if s ≠ "" then some s else none)))
  let sqlite_tables := pySorted (table_schemas.map Prod.fst)
  let relevant_tables := relevant_tables_of hits table_schemas dialect
  let table_blocks := table_blocks_of relevant_tables table_schemas max_items
  let rel_snips := hits.filterMap (fun h =>
    if h.doc_type = "relationship" ∧ h.content ≠ "" then
      some ("- " ++ pyTake (pyStrip h.content) 500)
    else none)
  let desc_snips := hits.filterMap (fun h =>
    if (h.doc_type = "field" ∨ h.doc_type = "table") ∧ h.content ≠ "" then
      some ("- " ++ pyTake (pyStrip h.content) 500)
    else none)
  let dialect_note :=
    if dialect = "sqlite" then
      "SQLite rules: DO NOT use schema prefixes. Use ONLY table names like `v_dlv_dep_tran`."
    else
      "Use full table identifiers as needed by the target database."
  let context := pyJoin "\n"
    [ "Database dialect: " ++ dialect,
      dialect_note,
      "\nAvailable tables in the connected DB:",
      (if sqlite_tables ≠ [] then "- " ++ pyJoin ", " (sqlite_tables.take 200) else "- (unknown)"),
      "\nRelevant tables & columns (from DB schema):",
      (if table_blocks ≠ [] then pyJoin "\n" table_blocks else "- (no relevant tables confirmed)"),
      "\nRelationships (from metadata):",
      (if rel_snips ≠ [] then pyJoin "\n" (rel_snips.take max_items) else "- (none found)"),
      "\nDescriptions (from metadata):",
      (if desc_snips ≠ [] then pyJoin "\n" (desc_snips.take max_items) else "- (none found)") ]
  (context, known_schemas)

/-! ## `execute_sql_df` and `_apply_preview_limit` (db_utils.py) -/

/-- `re.search(r"\btop\b", low)` as a boolean: scan every position, checking a
word boundary on both sides of a literal `top`. -/
def hasTopAt : List Char → Bool
  | 't' :: 'o' :: 'p' :: rest =>
    match rest with
    | [] => true
    | d :: _ => !isWordChar d
  | _ => false

/-- Scan for `\btop\b`, threading the boundary flag (previous character). -/
def hasTopGo : Bool → List Char → Bool
  | _, [] => false
  | atB, c :: cs => (atB && hasTopAt (c :: cs)) || hasTopGo (!isWordChar c) cs

/-- Whether `\btop\b` matches anywhere in the string. -/
def hasWordTop (s : String) : Bool := hasTopGo true s.data

/-- `re.match(r"^\s*select\s+(distinct\s+)?", s, re.I)`: on success returns
(group 1 with original casing — `distinct` plus its trailing whitespace, or
the empty string — and the remainder of `s` after the match).  The whitespace
runs are maximal; the optional group is taken greedily and only when
`distinct` is followed by at least one whitespace character. -/
def matchSelectDistinct (s : String) : Option (String × String) :=
  let rest0 := s.data.dropWhile pyIsSpace
  match rest0 with
  | c1 :: c2 :: c3 :: c4 :: c5 :: c6 :: rest1 =>
    if [c1.toLower, c2.toLower, c3.toLower, c4.toLower, c5.toLower, c6.toLower]
        = ['s', 'e', 'l', 'e', 'c', 't'] then
      let sp1 := rest1.takeWhile pyIsSpace
      if sp1.isEmpty then none
      else
        let rest2 := rest1.dropWhile pyIsSpace
        match rest2 with
        | d1 :: d2 :: d3 :: d4 :: d5 :: d6 :: d7 :: d8 :: rest3 =>
          if [d1.toLower, d2.toLower, d3.toLower, d4.toLower,
              d5.toLower, d6.toLower, d7.toLower, d8.toLower]
              = ['d', 'i', 's', 't', 'i', 'n', 'c', 't'] then
            let sp2 := rest3.takeWhile pyIsSpace
            if sp2.isEmpty then some ("", String.mk rest2)
            else some (String.mk ([d1, d2, d3, d4, d5, d6, d7, d8] ++ sp2),
                       String.mk (rest3.dropWhile pyIsSpace))
          else some ("", String.mk rest2)
        | _ => some ("", String.mk rest2)
    else none
  | _ => none

/-- Whether the lowered, left-stripped statement is query-like
(`SELECT`/`WITH` prefix), as tested by `execute_sql_df`. -/
def isQueryLike (s : String) : Bool :=
  pyStartsWith (pyLStrip (pyLower s)) "select" || pyStartsWith (pyLStrip (pyLower s)) "with"

/-- `_apply_preview_limit` from db_utils.py: for query-like statements, append
` LIMIT n` for sqlite unless the lowered text contains the substring
`" limit "`, or insert `TOP (n)` after `SELECT [DISTINCT]` for the mssql
dialects unless `\btop\b` occurs; other statements and dialects pass through. -/
def apply_preview_limit (dialect : String) (max_rows : Nat) (s : String) : String :=
  let low := pyLStrip (pyLower s)
  if !(pyStartsWith low "select" || pyStartsWith low "with") then s
  else if dialect = "sqlite" then
    if containsSub low " limit " then s else s ++ " LIMIT " ++ toString max_rows
  else if dialect = "mssql" || dialect = "mssql+pymssql" || dialect = "mssql+pyodbc" then
    if hasWordTop low then s
    else
      match matchSelectDistinct s with
      | none => s
      | some (distinct, rest) =>
        "SELECT " ++ distinct ++ "TOP (" ++ toString max_rows ++ ") " ++ rest
  else s

/-- `execute_sql_df` from db_utils.py.  The SQLAlchemy connection is the
external collaborator: `dbQuery` models `pd.read_sql_query` (returning the
row count of the resulting frame) and `dbExec` models `conn.execute`
(returning `rowcount`); a raised driver exception is an `Except.error`
carrying `str(e)` and is *not* caught here — the function has no
`try`/`except`.  On success the returned string is the status text. -/
def execute_sql_df (dialect : String) (dbQuery : String → Except String Nat)
    (dbExec : String → Except String Int) (sql : String) (max_rows : Nat) :
    Except String String :=
  let sql2 := String.mk (rstripSetL [';'] (stripL sql.data))
  if sql2 = "" then Except.ok "⚠️ Empty SQL."
  else
    let sql_limited := apply_preview_limit dialect max_rows sql2
    let low := pyLStrip (pyLower sql_limited)
    if pyStartsWith low "select" || pyStartsWith low "with" then
      match dbQuery sql_limited with
      | Except.ok n =>
        Except.ok ("✅ Returned " ++ toString n ++ " rows (showing up to "
          ++ toString (min n max_rows) ++ ").")
      | Except.error e => Except.error e
    else
      match dbExec sql_limited with
      | Except.ok rc => Except.ok ("✅ Statement executed. Rows affected: " ++ toString rc)
      | Except.error e => Except.error e

/-! ## JSON values and `json.loads`

`generate_sql_or_clarification` and `fix_sql_on_error` parse the model's raw
text with Python's standard-library `json.loads`.  The parser below models
that external library on the fragment exercised here: objects, arrays,
strings with the standard escapes, integers, booleans and null.  Fractional
or exponent numbers are treated as a parse failure (which only makes the
fallback-to-clarification branch fire more often, the conservative
direction). -/

/-- Parsed JSON value. -/
inductive JVal where
  | null : JVal
  | bool (b : Bool) : JVal
  | num (n : Int) : JVal
  | str (s : String) : JVal
  | arr (xs : List JVal) : JVal
  | obj (fields : List (String × JVal)) : JVal

/-- JSON insignificant whitespace. -/
def jsonWs (c : Char) : Bool := c = ' ' || c = '\t' || c = '\n' || c = '\r'

/-- Skip JSON whitespace. -/
def skipWs (l : List Char) : List Char := l.dropWhile jsonWs

/-- Single-character JSON string escapes. -/
def jEsc (c : Char) : Option Char :=
  if c = '"' then some '"'
  else if c = '\\' then some '\\'
  else if c = '/' then some '/'
  else if c = 'n' then some '\n'
  else if c = 't' then some '\t'
  else if c = 'r' then some '\r'
  else if c = 'b' then some (Char.ofNat 8)
  else if c = 'f' then some (Char.ofNat 12)
  else none

/-- Hexadecimal digit value. -/
def hexVal (c : Char) : Option Nat :=
  if c.isDigit then some (c.toNat - '0'.toNat)
  else if 'a' ≤ c ∧ c ≤ 'f' then some (c.toNat - 'a'.toNat + 10)
  else if 'A' ≤ c ∧ c ≤ 'F' then some (c.toNat - 'A'.toNat + 10)
  else none

/-- JSON string body after the opening quote: characters up to the closing
quote, decoding escapes. -/
def jStringL : List Char → Option (List Char × List Char)
  | [] => none
  | '"' :: r => some ([], r)
  | '\\' :: 'u' :: h1 :: h2 :: h3 :: h4 :: r =>
    match hexVal h1, hexVal h2, hexVal h3, hexVal h4 with
    | some a, some b, some c, some d =>
      (jStringL r).map (fun p => (Char.ofNat (((a * 16 + b) * 16 + c) * 16 + d) :: p.1, p.2))
    | _, _, _, _ => none
  | '\\' :: e :: r =>
    match jEsc e with
    | some c => (jStringL r).map (fun p => (c :: p.1, p.2))
    | none => none
  | c :: r => (jStringL r).map (fun p => (c :: p.1, p.2))

/-- Digits to a natural number. -/
def natOfDigits (ds : List Char) : Nat :=
  ds.foldl (fun acc c => acc * 10 + (c.toNat - '0'.toNat)) 0

/-- JSON unsigned integer: digit run, no leading zero, and no fraction or
exponent (those are unsupported here and fail the parse). -/
def jNatNum (cs : List Char) : Option (Nat × List Char) :=
  let ds := cs.takeWhile Char.isDigit
  let rest := cs.dropWhile Char.isDigit
  if ds.isEmpty then none
  else if 1 < ds.length && ds.headD ' ' = '0' then none
  else
    match rest with
    | '.' :: _ => none
    | 'e' :: _ => none
    | 'E' :: _ => none
    | _ => some (natOfDigits ds, rest)

/-- JSON number with optional leading minus. -/
def jNum (cs : List Char) : Option (JVal × List Char) :=
  match cs with
  | '-' :: r => (jNatNum r).map (fun p => (JVal.num (-(p.1 : Int)), p.2))
  | _ => (jNatNum cs).map (fun p => (JVal.num (p.1 : Int), p.2))

mutual

/-- Recursive-descent JSON value (fuel-indexed). -/
def jValue : Nat → List Char → Option (JVal × List Char)
  | 0, _ => none
  | Nat.succ f, cs =>
    match skipWs cs with
    | 'n' :: 'u' :: 'l' :: 'l' :: r => some (JVal.null, r)
    | 't' :: 'r' :: 'u' :: 'e' :: r => some (JVal.bool true, r)
    | 'f' :: 'a' :: 'l' :: 's' :: 'e' :: r => some (JVal.bool false, r)
    | '"' :: r => (jStringL r).map (fun p => (JVal.str (String.mk p.1), p.2))
    | c :: r =>
      if c = Char.ofNat 123 then jObjAll f r
      else if c = '[' then jArrAll f r
      else if c = '-' || c.isDigit then jNum (c :: r)
      else none
    | [] => none

/-- Array elements after the opening bracket. -/
def jArrAll : Nat → List Char → Option (JVal × List Char)
  | 0, _ => none
  | Nat.succ f, cs =>
    match skipWs cs with
    | ']' :: r => some (JVal.arr [], r)
    | rest =>
      match jValue f rest with
      | some (v, r1) => jArrRest f [v] r1
      | none => none

/-- Array continuation: comma-separated elements until the closing bracket. -/
def jArrRest : Nat → List JVal → List Char → Option (JVal × List Char)
  | 0, _, _ => none
  | Nat.succ f, acc, cs =>
    match skipWs cs with
    | ']' :: r => some (JVal.arr acc.reverse, r)
    | ',' :: r =>
      match jValue f r with
      | some (v, r1) => jArrRest f (v :: acc) r1
      | none => none
    | _ => none

/-- Object members after the opening brace. -/
def jObjAll : Nat → List Char → Option (JVal × List Char)
  | 0, _ => none
  | Nat.succ f, cs =>
    match skipWs cs with
    | c :: r =>
      if c = Char.ofNat 125 then some (JVal.obj [], r)
      else if c = '"' then
        match jStringL r with
        | some (k, r1) => jMember f [] (String.mk k) r1
        | none => none
      else none
    | [] => none

/-- Parse `: value` after a member key, then continue. -/
def jMember : Nat → List (String × JVal) → String → List Char → Option (JVal × List Char)
  | 0, _, _, _ => none
  | Nat.succ f, acc, k, cs =>
    match skipWs cs with
    | ':' :: r =>
      match jValue f r with
      | some (v, r1) => jObjRest f ((k, v) :: acc) r1
      | none => none
    | _ => none

/-- Object continuation: comma-separated members until the closing brace. -/
def jObjRest : Nat → List (String × JVal) → List Char → Option (JVal × List Char)
  | 0, _, _ => none
  | Nat.succ f, acc, cs =>
    match skipWs cs with
    | c :: r =>
      if c = Char.ofNat 125 then some (JVal.obj acc.reverse, r)
      else if c = ',' then
        match skipWs r with
        | c2 :: r2 =>
          if c2 = '"' then
            match jStringL r2 with
            | some (k, r3) => jMember f acc (String.mk k) r3
            | none => none
          else none
        | [] => none
      else none
    | [] => none

end

/-- `json.loads` (modelled): parse one JSON value and require only
whitespace after it. -/
def json_loads (s : String) : Option JVal :=
  match jValue (s.data.length + 1) s.data with
  | some (v, r) => if skipWs r = [] then some v else none
  | none => none

/-- `dict.get(k)` on a parsed JSON object: later duplicate keys win, as in
Python's `json.loads`. -/
def pyDictGet (fields : List (String × JVal)) (k : String) : Option JVal :=
  fields.reverse.lookup k

/-! ## `_clean_code_fence`, `generate_sql_or_clarification`, `fix_sql_on_error` (ai_utils.py) -/

/-- The backquote character. -/
def backquote : Char := Char.ofNat 96

/-- `_clean_code_fence` from ai_utils.py: strip whitespace; if the text starts
with three backquotes, remove that fence marker together with its language tag
(`re.sub(r"^\x60\x60\x60[a-zA-Z0-9]*\n?", "", t)`), strip, drop trailing
backquotes, and strip again. -/
def clean_code_fence (text : String) : String :=
  let t := stripL text.data
  if isPre [backquote, backquote, backquote] t then
    let t1 := t.drop 3
    let t2 := t1.dropWhile (fun c => c.isAlpha || c.isDigit)
    let t3 := match t2 with
      | '\n' :: r => r
      | _ => t2
    String.mk (stripL (rstripSetL [backquote] (stripL t3)))
  else String.mk (stripL t)

/-- The acceptance test of the parsed model output:
`isinstance(obj, dict) and obj.get("type") in ("sql", "clarification")`. -/
def typGuard (fields : List (String × JVal)) : Bool :=
  match pyDictGet fields "type" with
  | some (JVal.str t) => t = "sql" || t = "clarification"
  | _ => false

/-- The synthetic clarification substituted by `generate_sql_or_clarification`
when the model output cannot be parsed or fails the shape check. -/
def genFallback : List (String × JVal) :=
  [("type", JVal.str "clarification"),
   ("questions", JVal.arr [JVal.str
     "I couldn't parse a valid JSON response. Please rephrase your request and specify the target table(s)."])]

/-- `generate_sql_or_clarification` from ai_utils.py.  The chat completion is
the external collaborator: `llm` is the raw text of the model's reply, or the
exception raised by the client.  A missing chat deployment raises
`RuntimeError`; a client exception propagates — the `try` in the source only
covers `json.loads`, not the service call. -/
def generate_sql_or_clarification (chat_deploy : String) (llm : Except String String) :
    Except String (List (String × JVal)) :=
  if pyStrip chat_deploy = "" then
    Except.error "AZURE_OPENAI_CHAT_DEPLOYMENT is missing in .env"
  else
    match llm with
    | Except.error e => Except.error e
    | Except.ok content =>
      let raw := clean_code_fence content
      match json_loads raw with
      | some (JVal.obj fields) =>
        if typGuard fields then Except.ok fields else Except.ok genFallback
      | _ => Except.ok genFallback

/-- The synthetic clarification of `fix_sql_on_error`. -/
def fixFallback : List (String × JVal) :=
  [("type", JVal.str "clarification"),
   ("questions", JVal.arr [JVal.str "Please clarify your request (target tables/filters)."])]

/-- `fix_sql_on_error` from ai_utils.py: same parse-or-fallback contract as
`generate_sql_or_clarification` over the repair prompt's reply. -/
def fix_sql_on_error (chat_deploy : String) (llm : Except String String) :
    Except String (List (String × JVal)) :=
  if pyStrip chat_deploy = "" then
    Except.error "AZURE_OPENAI_CHAT_DEPLOYMENT is missing in .env"
  else
    match llm with
    | Except.error e => Except.error e
    | Except.ok content =>
      let raw := clean_code_fence content
      match json_loads raw with
      | some (JVal.obj fields) =>
        if typGuard fields then Except.ok fields else Except.ok fixFallback
      | _ => Except.ok fixFallback

/-! ## `embed_text` and `search_metadata` (ai_utils.py) -/

/-- One raw document from the search service, with every field optional
(the source reads them with `dict.get`). -/
structure SearchDoc where
  idOpt : Option String
  scoreOpt : Option Float
  docTypeOpt : Option String
  schemaNameOpt : Option String
  tableNameOpt : Option String
  columnNameOpt : Option String
  contentOpt : Option String

/-- The normalization of one raw document into a `Hit`, with the source's
defaults (`doc.get("id","")`, `doc.get("@search.score", 0.0)`, …). -/
def doc_to_hit (d : SearchDoc) : Hit :=
  { id := d.idOpt.getD ""
    score := d.scoreOpt.getD 0.0
    doc_type := d.docTypeOpt.getD ""
    schema_name := d.schemaNameOpt
    table_name := d.tableNameOpt
    column_name := d.columnNameOpt
    content := d.contentOpt.getD "" }

/-- `embed_text` from ai_utils.py: substitute a single space for empty text
and call the embeddings endpoint (`create` is the external client; a raised
client exception is `Except.error`). -/
def embed_text (create : String → Except String (List Float)) (text : String) :
    Except String (List Float) :=
  let t := if text = "" then " " else text
  create t

/-- `search_metadata` from ai_utils.py.  `create` is the embeddings client and
`svc` the search service (returning raw documents for the hybrid query).  An
empty question returns an empty hit list; a missing embeddings deployment
raises; an embedding failure propagates — there is no `try`/`except` and no
lexical-only fallback in the source. -/
def search_metadata (emb_deploy : String) (create : String → Except String (List Float))
    (svc : String → List Float → Nat → List SearchDoc) (question : String) (top_k : Nat) :
    Except String (List Hit) :=
  let q := pyStrip question
  if q = "" then Except.ok []
  else if pyStrip emb_deploy = "" then
    Except.error "AZURE_OPENAI_EMBEDDINGS_DEPLOYMENT is missing in .env"
  else
    match embed_text create q with
    | Except.error e => Except.error e
    | Except.ok vec => Except.ok ((svc q vec top_k).map doc_to_hit)

/-! ## `run_flow` (ui.py)

The per-question turn controller.  The two LLM calls are oracles: `gen` is
the parsed result of `generate_sql_or_clarification` as consumed by the
controller (`obj.get("type")`, `obj.get("sql") or ""`,
`obj.get("questions") or []`), and `fix` the parsed result of
`fix_sql_on_error` as a function of the error text it is given.  `execF`
models the call to `execute_sql_df` (status text on success, the raised
exception's `str(e)` on failure).  The model returns the content of the final
yield, the list of SQL strings passed to the execution adapter (the
instrumentation that counts execution attempts), and the accumulated log
lines. -/

/-- The fields of the parsed LLM reply as consumed by `run_flow`, with the
source's `get`-defaults applied. -/
structure GenObj where
  typ : String
  sql : String
  questions : List String

/-- `_status_box` from ui.py. -/
def status_box (msg : String) (kind : String) : String :=
  let kind := if kind = "success" || kind = "warn" || kind = "danger" then kind else "success"
  let safe := String.mk (replaceCharL '>' "&gt;".data (replaceCharL '<' "&lt;".data msg.data))
  "<div class=\"td-status " ++ kind ++ "\">" ++ safe ++ "</div>"

/-- The clarification markdown block built by `run_flow` from the first ten
questions. -/
def clar_block (qs : List String) : String :=
  "### I need a bit more info\n" ++ pyJoin "\n" ((qs.take 10).map (fun x => "- " ++ x))

/-- The final yield of `run_flow`: generated SQL pane, clarification pane,
status box.  (The dataframe pane carries no information used by the claims.) -/
structure FlowFinal where
  sqlOut : String
  clar : String
  status : String

/-- The execution-and-repair stage of `run_flow` (ui.py lines 127-162): the
first execution attempt, the single `fix_sql_on_error` pass on failure,
re-validation, and the second (final) execution attempt.  `sql1` is the
validated SQL and `log3` the log accumulated so far. -/
def exec_stage (table_schemas : List (String × List String)) (dialect : String)
    (known_schemas : List String) (fix : String → GenObj)
    (execF : String → Except String String) (sql1 : String) (log3 : List String) :
    FlowFinal × List String × List String :=
  let log4 := log3 ++ ["[3] Executing SQL..."]
  match execF sql1 with
  | Except.ok st =>
    (⟨sql1, "", status_box st "success"⟩, [sql1], log4 ++ ["[3] SQL executed."])
  | Except.error err =>
    let log5 := log4 ++ ["[3] Execution error: " ++ err]
    let obj2 := fix err
    if obj2.typ = "clarification" then
      (⟨sql1, clar_block obj2.questions, status_box "Clarification needed." "warn"⟩,
        [sql1], log5 ++ ["[4] LLM asked for clarification after error."])
    else
      let sql2a := pyStrip obj2.sql
      let sql2 := if dialect = "sqlite" then
        strip_schema_for_sqlite sql2a known_schemas (table_schemas.map Prod.fst)
      else sql2a
      match validate_sql_against_db sql2 table_schemas dialect with
      | some m2 =>
        (⟨sql2, "### I need a bit more info\n- " ++ m2
            ++ "\n- Which table should be used instead?",
          status_box "Clarification needed (table not found)." "warn"⟩, [sql1],
          log5 ++ ["[4] Fixed SQL references a missing table."])
      | none =>
        match execF sql2 with
        | Except.ok st2 =>
          (⟨sql2, "", status_box st2 "success"⟩, [sql1, sql2],
            log5 ++ ["[4] Corrected SQL executed."])
        | Except.error err2 =>
          (⟨sql2, "### Execution failed\n- " ++ err2
              ++ "\n- Please specify the exact table name and required filters.",
            status_box "SQL execution failed after correction." "danger"⟩,
            [sql1, sql2], log5 ++ ["[4] Corrected SQL failed: " ++ err2])

/-- `run_flow` from ui.py (the generator's effect, final state).  Returns
`(final yield, executed SQL list, log lines)`. -/
def run_flow (question : String) (do_execute : Bool) (hits : List Hit)
    (table_schemas : List (String × List String)) (dialect : String) (debug : Bool)
    (gen : GenObj) (fix : String → GenObj) (execF : String → Except String String) :
    FlowFinal × List String × List String :=
  let q := pyStrip question
  if q = "" then (⟨"", "", status_box "Please enter a question." "warn"⟩, [], [])
  else
    let log1 := ["[1] Searching Azure AI Search for: " ++ q]
    let known_schemas := (build_context hits table_schemas dialect 10).2
    let log1 := if debug then
      log1 ++ ["[debug] hits=" ++ toString hits.length ++ " dialect=" ++ dialect]
    else log1
    let log2 := log1 ++ ["[2] Sending context to LLM for SQL generation..."]
    if gen.typ = "clarification" then
      (⟨"", clar_block gen.questions, status_box "Clarification needed." "warn"⟩, [],
        log2 ++ ["[2] LLM asked for clarification."])
    else
      let sql0 := pyStrip gen.sql
      if sql0 = "" then
        (⟨"", "### Clarification\n- I couldn't generate SQL. Please clarify the target tables.",
          status_box "Clarification needed." "warn"⟩, [], log2 ++ ["[2] Empty SQL from LLM."])
      else
        let sql1 := if dialect = "sqlite" then
          strip_schema_for_sqlite sql0 known_schemas (table_schemas.map Prod.fst)
        else sql0
        match validate_sql_against_db sql1 table_schemas dialect with
        | some missing_msg =>
          (⟨sql1, "### I need a bit more info\n- " ++ missing_msg
              ++ "\n- Which table should be used instead?",
            status_box "Clarification needed (table not found)." "warn"⟩, [],
            log2 ++ ["[2] SQL references a missing table."])
        | none =>
          let log3 := log2 ++ ["[2] SQL generated successfully."]
          if !do_execute then
            (⟨sql1, "", status_box "Execution is OFF. Turn on 'Execute SQL' to run it." "warn"⟩,
              [], log3 ++ ["[3] Skipping execution (toggle off)."])
          else
            exec_stage table_schemas dialect known_schemas fix execF sql1 log3

/-! ## Remaining definitions: spec-side predicate and concrete fixtures -/

/-- Word-boundary test for a literal `limit` at the head of the list. -/
def hasLimitAt : List Char → Bool
  | 'l' :: 'i' :: 'm' :: 'i' :: 't' :: rest =>
    match rest with
    | [] => true
    | d :: _ => !isWordChar d
  | _ => false

/-- Scan for the standalone word `limit`, threading the boundary flag. -/
def hasLimitGo : Bool → List Char → Bool
  | _, [] => false
  | atB, c :: cs => (atB && hasLimitAt (c :: cs)) || hasLimitGo (!isWordChar c) cs

/-- Modelled from the spec: whether a statement "already contains" a
row-limiting clause in the sqlite dialect's syntax — the keyword `limit`
occurring as a standalone word (case-insensitive) anywhere in the statement.
This is the spec-side reading of "only if the statement does not already
contain one", to be compared with the code's substring guard. -/
def contains_limit_word (s : String) : Bool := hasLimitGo true (pyLower s).data

/-- Fixture: a metadata hit naming a table that does not exist in the live
schema. -/
def ghostHit : Hit := ⟨"h1", 0.0, "table", some "s1", some "ghost", none, "ghost table"⟩

/-- Fixture: a metadata hit naming a table that exists in the live schema. -/
def realHit : Hit := ⟨"h2", 0.0, "table", none, some "real", none, "real table"⟩

/-- Fixture: a live schema containing only the table `real`. -/
def schemasReal : List (String × List String) := [("real", ["c1"])]

/-- Fixture: a database query collaborator that always raises. -/
def dbBoomQuery : String → Except String Nat := fun _ => Except.error "no such table: x"

/-- Fixture: a database statement collaborator that always raises. -/
def dbBoomExec : String → Except String Int := fun _ => Except.error "no such table: x"

/-- Fixture: a search service returning no documents. -/
def svcEmpty : String → List Float → Nat → List SearchDoc := fun _ _ _ => []

/-- Fixture: a generation result carrying SQL over the table `t`. -/
def genSqlT : GenObj := ⟨"sql", "select a from t x", []⟩

/-- Fixture: a repair result that asks for clarification. -/
def fixClarT : String → GenObj := fun _ => ⟨"clarification", "", ["which table?"]⟩

/-- Fixture: the live schema for the single table `t`. -/
def schemaT : List (String × List String) := [("t", ["a", "b"])]

/-- The word-boundary state after scanning a list of characters, starting from
state `b`: `true` when the last character (or the initial state, for the empty
list) allows a word to begin. -/
def lastOk : List Char → Bool → Bool
  | [], b => b
  | x :: xs, _ => lastOk xs (!isWordChar x)

/-! ## Helper lemmas -/

theorem strMk_data (s : String) : String.mk s.data = s := rfl

theorem strData_append (a b : String) : (a ++ b).data = a.data ++ b.data := rfl

theorem isPre_append (p l t : List Char) (h : isPre p l = true) : isPre p (l ++ t) = true := by
  induction p generalizing l with
  | nil => rfl
  | cons a as ih =>
    cases l with
    | nil => simp [isPre] at h
    | cons b bs =>
      simp only [isPre, Bool.and_eq_true] at h ⊢
      exact ⟨h.1, ih bs h.2⟩

theorem isPre_self_append (n b : List Char) : isPre n (n ++ b) = true := by
  induction n with
  | nil => rfl
  | cons a as ih => simp [isPre, ih]

theorem containsSubL_of_isPre (n l : List Char) (h : isPre n l = true) :
    containsSubL n l = true := by
  cases l with
  | nil => cases n with
    | nil => rfl
    | cons a as => simp [isPre] at h
  | cons c cs => simp [containsSubL, h]

theorem containsSubL_mid (n a b : List Char) : containsSubL n (a ++ (n ++ b)) = true := by
  induction a with
  | nil => exact containsSubL_of_isPre _ _ (isPre_self_append n b)
  | cons x xs ih => simp [containsSubL, ih]

theorem lstripL_append (a b : List Char) (h : lstripL a ≠ []) :
    lstripL (a ++ b) = lstripL a ++ b := by
  induction a with
  | nil => simp [lstripL] at h
  | cons x xs ih =>
    by_cases hs : pyIsSpace x
    · simp only [lstripL, List.cons_append, List.dropWhile_cons, hs, if_pos] at h ⊢
      exact ih h
    · simp [lstripL, List.dropWhile_cons, hs]

theorem lowerL_append (a b : List Char) : lowerL (a ++ b) = lowerL a ++ lowerL b := by
  simp [lowerL]

theorem matchDotted_eq (cs w1 w2 rest : List Char)
    (h : matchDotted cs = some (w1, w2, rest)) : cs = w1 ++ '.' :: (w2 ++ rest) := by
  cases cs with
  | nil => simp [matchDotted] at h
  | cons c cs' =>
    simp only [matchDotted] at h
    split at h
    · split at h
      · next d rest1 heq =>
        split at h
        · injection h with h1
          injection h1 with hw1 h2
          injection h2 with hw2 hrest
          subst hw1; subst hw2; subst hrest
          have h1 : (d :: rest1.takeWhile isWordChar) ++ rest1.dropWhile isWordChar
              = d :: rest1 := by
            rw [List.cons_append, List.takeWhile_append_dropWhile]
          rw [h1, List.cons_append, ← heq, List.takeWhile_append_dropWhile]
        · exact absurd h (by simp)
      · exact absurd h (by simp)
    · exact absurd h (by simp)

theorem subGo_nil_schemas (tbls : List String) :
    ∀ (f : Nat) (b : Bool) (cs : List Char), subGo [] tbls f b cs = cs := by
  intro f
  induction f with
  | zero => intro b cs; rfl
  | succ f ih =>
    intro b cs
    cases cs with
    | nil => rfl
    | cons c cs' =>
      simp only [subGo]
      cases hb : (if b then matchDotted (c :: cs') else none) with
      | none => simp [ih]
      | some triple =>
        obtain ⟨w1, w2, rest⟩ := triple
        have hm : matchDotted (c :: cs') = some (w1, w2, rest) := by
          cases b with
          | false => simp at hb
          | true => simpa using hb
        have hsplit := matchDotted_eq _ _ _ _ hm
        simp only [List.contains, List.elem_eq_mem, List.not_mem_nil, decide_False,
          Bool.false_and, Bool.false_eq_true, if_neg, ih]
        rw [← List.cons_append, ← List.append_assoc] at hsplit
        simp [← hsplit]

theorem strAppend_assoc (a b c : String) : a ++ b ++ c = a ++ (b ++ c) := by
  obtain ⟨x⟩ := a
  obtain ⟨y⟩ := b
  obtain ⟨z⟩ := c
  exact congrArg String.mk (List.append_assoc x y z)

theorem lastOk_append (a b : List Char) (bp : Bool) :
    lastOk (a ++ b) bp = lastOk b (lastOk a bp) := by
  induction a generalizing bp with
  | nil => rfl
  | cons x xs ih => simp [lastOk, ih]

theorem hasTopGo_mid (a : List Char) (bp : Bool) (hb : lastOk a bp = true)
    (c : Char) (hc : isWordChar c = false) (b : List Char) :
    hasTopGo bp (a ++ ('t' :: 'o' :: 'p' :: c :: b)) = true := by
  induction a generalizing bp with
  | nil =>
    simp only [lastOk] at hb
    simp [hasTopGo, hasTopAt, hb, hc]
  | cons x xs ih =>
    have h2 := ih (!isWordChar x) hb
    simp only [List.cons_append, hasTopGo]
    simp [h2]

theorem pyIsSpace_facts (c : Char) (h : pyIsSpace c = true) :
    Char.toLower c = c ∧ isWordChar c = false := by
  simp only [pyIsSpace, Bool.or_eq_true, decide_eq_true_eq] at h
  rcases h with ((((h | h) | h) | h) | h) | h <;> subst h <;> exact ⟨by decide, by decide⟩

theorem matchSelectDistinct_shape (s g r : String)
    (h : matchSelectDistinct s = some (g, r)) :
    g = "" ∨ ∃ l c, g.data = l ++ [c] ∧ pyIsSpace c = true := by
  simp only [matchSelectDistinct] at h
  split at h
  · split at h
    · split at h
      · exact absurd h (by simp)
      · split at h
        · split at h
          · split at h
            · injection h with h1
              injection h1 with hg hr
              exact Or.inl hg.symm
            · rename_i d1 d2 d3 d4 d5 d6 d7 d8 rest3 heq1 h3 h4
              injection h with h1
              injection h1 with hg hr
              have hne : rest3.takeWhile pyIsSpace ≠ [] := by
                intro h0
                rw [h0] at h4
                simp at h4
              refine Or.inr ⟨[d1, d2, d3, d4, d5, d6, d7, d8]
                  ++ (rest3.takeWhile pyIsSpace).dropLast,
                (rest3.takeWhile pyIsSpace).getLast hne, ?_, ?_⟩
              · rw [← hg]
                show [d1, d2, d3, d4, d5, d6, d7, d8] ++ rest3.takeWhile pyIsSpace = _
                rw [List.append_assoc, List.dropLast_append_getLast hne]
              · exact List.mem_takeWhile_imp (List.getLast_mem hne)
          · injection h with h1
            injection h1 with hg hr
            exact Or.inl hg.symm
        · injection h with h1
          injection h1 with hg hr
          exact Or.inl hg.symm
    · exact absurd h (by simp)
  · exact absurd h (by simp)

theorem pyLower_data (s : String) : (pyLower s).data = lowerL s.data := rfl

theorem pyLStrip_data (s : String) : (pyLStrip s).data = lstripL s.data := rfl

theorem low_append (s t : String) (h : (pyLStrip (pyLower s)).data ≠ []) :
    (pyLStrip (pyLower (s ++ t))).data = (pyLStrip (pyLower s)).data ++ lowerL t.data := by
  show lstripL (lowerL (s ++ t).data) = lstripL (lowerL s.data) ++ lowerL t.data
  rw [strData_append, lowerL_append]
  exact lstripL_append _ _ h

theorem apl_not_query (dialect : String) (n : Nat) (s : String)
    (h : (pyStartsWith (pyLStrip (pyLower s)) "select"
        || pyStartsWith (pyLStrip (pyLower s)) "with") = false) :
    apply_preview_limit dialect n s = s := by
  simp [apply_preview_limit, h]

theorem apl_sqlite_contains (n : Nat) (s : String)
    (hq : (pyStartsWith (pyLStrip (pyLower s)) "select"
        || pyStartsWith (pyLStrip (pyLower s)) "with") = true)
    (hc : containsSub (pyLStrip (pyLower s)) " limit " = true) :
    apply_preview_limit "sqlite" n s = s := by
  simp [apply_preview_limit, hq, hc]

theorem apl_sqlite_inject (n : Nat) (s : String)
    (hq : (pyStartsWith (pyLStrip (pyLower s)) "select"
        || pyStartsWith (pyLStrip (pyLower s)) "with") = true)
    (hc : containsSub (pyLStrip (pyLower s)) " limit " = false) :
    apply_preview_limit "sqlite" n s = s ++ " LIMIT " ++ toString n := by
  simp [apply_preview_limit, hq, hc]

theorem apl_mssql_top (d : String) (n : Nat) (s : String)
    (hd : d = "mssql" ∨ d = "mssql+pymssql" ∨ d = "mssql+pyodbc")
    (ht : hasWordTop (pyLStrip (pyLower s)) = true) :
    apply_preview_limit d n s = s := by
  have hd2 : d ≠ "sqlite" := by rcases hd with h | h | h <;> subst h <;> decide
  have hdor : (d = "mssql" || d = "mssql+pymssql" || d = "mssql+pyodbc") = true := by
    rcases hd with h | h | h <;> simp [h]
  simp [apply_preview_limit, hd2, hdor, ht]

theorem apl_mssql_none (d : String) (n : Nat) (s : String)
    (hd : d = "mssql" ∨ d = "mssql+pymssql" ∨ d = "mssql+pyodbc")
    (ht : hasWordTop (pyLStrip (pyLower s)) = false)
    (hm : matchSelectDistinct s = none) :
    apply_preview_limit d n s = s := by
  have hd2 : d ≠ "sqlite" := by rcases hd with h | h | h <;> subst h <;> decide
  have hdor : (d = "mssql" || d = "mssql+pymssql" || d = "mssql+pyodbc") = true := by
    rcases hd with h | h | h <;> simp [h]
  simp [apply_preview_limit, hd2, hdor, ht, hm]

theorem apl_mssql_inject (d : String) (n : Nat) (s : String) (g r : String)
    (hd : d = "mssql" ∨ d = "mssql+pymssql" ∨ d = "mssql+pyodbc")
    (hq : (pyStartsWith (pyLStrip (pyLower s)) "select"
        || pyStartsWith (pyLStrip (pyLower s)) "with") = true)
    (ht : hasWordTop (pyLStrip (pyLower s)) = false)
    (hm : matchSelectDistinct s = some (g, r)) :
    apply_preview_limit d n s = "SELECT " ++ g ++ "TOP (" ++ toString n ++ ") " ++ r := by
  have hd2 : d ≠ "sqlite" := by rcases hd with h | h | h <;> subst h <;> decide
  have hdor : (d = "mssql" || d = "mssql+pymssql" || d = "mssql+pyodbc") = true := by
    rcases hd with h | h | h <;> simp [h]
  simp [apply_preview_limit, hq, hd2, hdor, ht, hm]

theorem apl_other (d : String) (n : Nat) (s : String) (h1 : d ≠ "sqlite")
    (h2 : (d = "mssql" || d = "mssql+pymssql" || d = "mssql+pyodbc") = false) :
    apply_preview_limit d n s = s := by
  simp [apply_preview_limit, h1, h2]

theorem generate_typ_cases (d : String) (llm : Except String String)
    (fs : List (String × JVal)) (h : generate_sql_or_clarification d llm = Except.ok fs) :
    pyDictGet fs "type" = some (JVal.str "sql")
      ∨ pyDictGet fs "type" = some (JVal.str "clarification") := by
  unfold generate_sql_or_clarification at h
  split at h
  · exact absurd h (by simp)
  · cases llm with
    | error e => exact absurd h (by simp)
    | ok content =>
      dsimp only at h
      cases hj : json_loads (clean_code_fence content) with
      | none =>
        rw [hj] at h
        injection h with h1
        subst h1
        exact Or.inr rfl
      | some v =>
        rw [hj] at h
        cases v with
        | obj fields =>
          dsimp only at h
          by_cases hg : typGuard fields = true
          · rw [if_pos hg] at h
            injection h with h1
            subst h1
            unfold typGuard at hg
            split at hg
            · next t heq =>
              simp only [Bool.or_eq_true, decide_eq_true_eq] at hg
              rcases hg with hg | hg <;> subst hg
              · exact Or.inl heq
              · exact Or.inr heq
            · simp at hg
          · rw [if_neg hg] at h
            injection h with h1
            subst h1
            exact Or.inr rfl
        | null =>
          dsimp only at h
          injection h with h1
          subst h1
          exact Or.inr rfl
        | bool b =>
          dsimp only at h
          injection h with h1
          subst h1
          exact Or.inr rfl
        | num m =>
          dsimp only at h
          injection h with h1
          subst h1
          exact Or.inr rfl
        | str t =>
          dsimp only at h
          injection h with h1
          subst h1
          exact Or.inr rfl
        | arr xs =>
          dsimp only at h
          injection h with h1
          subst h1
          exact Or.inr rfl

theorem strAppend_empty (s : String) : s ++ "" = s := by
  obtain ⟨l⟩ := s
  exact congrArg String.mk (List.append_nil l)

/-! ## Claim theorems -/

/-- C10: for every SQL string and live schema map, if the dialect is any value
other than `"sqlite"`, `validate_sql_against_db` returns no error regardless of
the SQL's content — no table-existence validation is performed for non-sqlite
dialects. -/
theorem C10_non_sqlite_skips_validation (sql : String) (ts : List (String × List String))
    (d : String) (h : d ≠ "sqlite") : validate_sql_against_db sql ts d = none := by
  simp [validate_sql_against_db, h]

/-- Witness for C10 at a concrete non-sqlite dialect and SQL referencing a
table absent from the schema map. -/
theorem C10_non_sqlite_skips_validation_witness :
    validate_sql_against_db "SELECT * FROM ghost g" [("orders", ["id"])] "mssql" = none :=
  C10_non_sqlite_skips_validation "SELECT * FROM ghost g" [("orders", ["id"])] "mssql" (by decide)

/-- C3: evaluation of the Schema Validator at the failing input.  The SQL
`SELECT * FROM orders` references only the table `orders`, which exists in the
live schema, yet the validator reports `order` as missing: the extraction
regex makes the alias atom mandatory, so with no alias present the last
character of the table name is consumed as the "alias" and the truncated name
`order` fails the membership test.  The claim's "if every referenced table
exists, it returns nothing" is the evident intent (the regex marks `as` as
optional), and the code is a slip. -/
theorem C3_validator_rejects_existing_table :
    validate_sql_against_db "SELECT * FROM orders" [("orders", ["id", "amount"])] "sqlite"
      = some "Missing table(s) in sqlite DB: order. Available tables include: orders"
    ∧ extract_tables_from_sql "SELECT * FROM orders" = ["order"] := ⟨rfl, rfl⟩

/-- Counterexample for C1: under the `"mssql"` dialect a hit table absent from
the live schema map stays in the computed relevant-table list, so the list is
not the intersection of hit tables and live-schema tables for every dialect —
the existence filter is applied only when the dialect is `"sqlite"`. -/
theorem C1_intersection_counterexample :
    relevant_tables_of [ghostHit] schemasReal "mssql" = ["ghost"]
    ∧ schemasReal.lookup "ghost" = none := ⟨rfl, rfl⟩

/-- C1 (amended): when the dialect is `"sqlite"`, the relevant-table list is
exactly the deduplicated hit tables intersected with the live schema's keys;
for other dialects the hit tables are kept unfiltered; and for every dialect
each per-table column block placed in the context is rendered solely from the
live schema map's column list (never from hit free text). -/
theorem C1_grounded_context (hits : List Hit) (ts : List (String × List String))
    (dialect : String) (n : Nat) :
    (dialect = "sqlite" →
      ∀ t, t ∈ relevant_tables_of hits ts dialect ↔
        (t ∈ pyDedup (hitTableNames hits) ∧ (ts.lookup t).isSome = true)) ∧
    (∀ b ∈ table_blocks_of (relevant_tables_of hits ts dialect) ts n,
      ∃ t cols, ts.lookup t = some cols ∧ cols ≠ [] ∧
        b = "- " ++ t ++ ": columns = " ++ pyJoin ", " (cols.take 80)) := by
  constructor
  · intro hd t
    subst hd
    simp [relevant_tables_of, List.mem_filter]
  · intro b hb
    simp only [table_blocks_of, List.mem_filterMap] at hb
    obtain ⟨t, ht, hbt⟩ := hb
    rcases hl : ts.lookup t with _ | cols
    · simp [hl] at hbt
    · by_cases hcols : cols = []
      · simp [hl, hcols] at hbt
      · refine ⟨t, cols, hl, hcols, ?_⟩
        simp [hl, hcols] at hbt
        exact hbt.symm

/-- Witness for C1 at concrete hits and schema: the existing table `real` is
kept by the sqlite intersection. -/
theorem C1_grounded_context_witness :
    "real" ∈ relevant_tables_of [ghostHit, realHit] schemasReal "sqlite" :=
  ((C1_grounded_context [ghostHit, realHit] schemasReal "sqlite" 10).1 rfl "real").mpr
    ⟨by decide, by decide⟩

/-- Counterexample for C5: the occurrence `s.t` follows `SELECT`, not
`FROM`/`JOIN`, yet `strip_schema_for_sqlite` rewrites it — the substitution is
applied everywhere in the string, so the output is not left untouched outside
`FROM`/`JOIN` positions as the claim states. -/
theorem C5_position_counterexample :
    strip_schema_for_sqlite "SELECT s.t FROM q" ["s"] ["t"] = "SELECT t FROM q"
    ∧ "SELECT t FROM q" ≠ "SELECT s.t FROM q" := ⟨rfl, by decide⟩

/-- C5 (amended): `strip_schema_for_sqlite` rewrites every `schema.table`
occurrence anywhere in the SQL whose prefix is a known schema name and whose
table is in the sqlite table list: a qualified table in a `FROM` clause is
stripped, a reference `alias.mytable` is untouched whenever `alias` is not a
known schema name, and with no known schemas the SQL is returned unchanged. -/
theorem C5_strip_everywhere :
    strip_schema_for_sqlite "SELECT * FROM myschema.mytable t" ["myschema"] ["mytable"]
      = "SELECT * FROM mytable t"
    ∧ strip_schema_for_sqlite "SELECT alias.mytable FROM mytable x" ["myschema"] ["mytable"]
      = "SELECT alias.mytable FROM mytable x"
    ∧ ∀ (sql : String) (tables : List String), strip_schema_for_sqlite sql [] tables = sql := by
  refine ⟨rfl, rfl, fun sql tables => ?_⟩
  unfold strip_schema_for_sqlite
  split
  · rfl
  · rw [show ((([] : List String).filter (fun s => s ≠ "")).map pyLower) = ([] : List String)
      from rfl]
    dsimp only
    rw [subGo_nil_schemas]

/-- C8 (amended): `search_metadata` returns an empty hit list for an empty
question, and when the question is non-empty an embedding-service failure
propagates out of the function unchanged — there is no retry, no backoff and
no lexical-only fallback. -/
theorem C8_retrieval_failure_semantics (dep : String)
    (create : String → Except String (List Float))
    (svc : String → List Float → Nat → List SearchDoc) (q : String) (k : Nat) :
    (pyStrip q = "" → search_metadata dep create svc q k = Except.ok []) ∧
    (∀ e, pyStrip q ≠ "" → pyStrip dep ≠ "" → create (pyStrip q) = Except.error e →
      search_metadata dep create svc q k = Except.error e) := by
  constructor
  · intro h
    simp [search_metadata, h]
  · intro e hq hd hc
    simp [search_metadata, hq, hd, embed_text, hc]

/-- Witness for C8 at a concrete failing embeddings client. -/
theorem C8_retrieval_failure_semantics_witness :
    search_metadata "emb" (fun _ => Except.error "boom") svcEmpty "revenue" 12
      = Except.error "boom" :=
  (C8_retrieval_failure_semantics "emb" (fun _ => Except.error "boom") svcEmpty "revenue" 12).2
    "boom" (by decide) (by decide) rfl

/-- Counterexample for C8: a transient embedding failure is not degraded to
lexical-only search — it propagates out of `search_metadata` as an
exception, failing the whole turn. -/
theorem C8_embed_failure_counterexample :
    search_metadata "emb" (fun _ => Except.error "503 Service Unavailable") svcEmpty
      "revenue by region" 12 = Except.error "503 Service Unavailable" := rfl

/-- Counterexample for C6: when the chat-completion call raises (model-service
failure), `generate_sql_or_clarification` does not return any
`GenerationResult` — the exception propagates, since the `try` in the source
only covers `json.loads`. -/
theorem C6_service_failure_counterexample :
    generate_sql_or_clarification "gpt" (Except.error "service timeout")
      = Except.error "service timeout" := rfl

/-- C6 (amended): whenever the model call itself returns raw text,
`generate_sql_or_clarification` always returns a dict whose `type` is `sql` or
`clarification` — never an absent result — substituting the synthetic
clarification when parsing fails; but a model-service exception (and a missing
chat deployment) propagates as an exception instead of being converted. -/
theorem C6_total_generation (deploy : String) (hd : pyStrip deploy ≠ "") :
    (∀ raw, ∃ fs, generate_sql_or_clarification deploy (Except.ok raw) = Except.ok fs ∧
      (pyDictGet fs "type" = some (JVal.str "sql")
        ∨ pyDictGet fs "type" = some (JVal.str "clarification"))) ∧
    (∀ raw, json_loads (clean_code_fence raw) = none →
      generate_sql_or_clarification deploy (Except.ok raw) = Except.ok genFallback) ∧
    (∀ e, generate_sql_or_clarification deploy (Except.error e) = Except.error e) := by
  refine ⟨fun raw => ?_, fun raw hj => ?_, fun e => ?_⟩
  · have hex : ∃ fs, generate_sql_or_clarification deploy (Except.ok raw) = Except.ok fs := by
      unfold generate_sql_or_clarification
      rw [if_neg hd]
      dsimp only
      cases json_loads (clean_code_fence raw) with
      | none => exact ⟨genFallback, rfl⟩
      | some v =>
        cases v with
        | obj fields =>
          by_cases hg : typGuard fields = true
          · exact ⟨fields, by simp [hg]⟩
          · exact ⟨genFallback, by simp [hg]⟩
        | null => exact ⟨genFallback, rfl⟩
        | bool b => exact ⟨genFallback, rfl⟩
        | num m => exact ⟨genFallback, rfl⟩
        | str t => exact ⟨genFallback, rfl⟩
        | arr xs => exact ⟨genFallback, rfl⟩
    obtain ⟨fs, hfs⟩ := hex
    exact ⟨fs, hfs, generate_typ_cases _ _ _ hfs⟩
  · unfold generate_sql_or_clarification
    rw [if_neg hd]
    dsimp only
    rw [hj]
  · unfold generate_sql_or_clarification
    rw [if_neg hd]

/-- Witness for C6 at a concrete unparseable model output. -/
theorem C6_total_generation_witness :
    ∃ fs, generate_sql_or_clarification "gpt" (Except.ok "not json") = Except.ok fs ∧
      (pyDictGet fs "type" = some (JVal.str "sql")
        ∨ pyDictGet fs "type" = some (JVal.str "clarification")) :=
  (C6_total_generation "gpt" (by decide)).1 "not json"

/-- Counterexample for C9 (negation of the claim's reachability of an
`answer` kind): no input whatsoever makes the generate operation return a
dict whose `type` is `"answer"` — the result type is two-way, not three-way. -/
theorem C9_no_answer_kind_counterexample :
    ¬ ∃ (d : String) (llm : Except String String) (fs : List (String × JVal)),
      generate_sql_or_clarification d llm = Except.ok fs
        ∧ pyDictGet fs "type" = some (JVal.str "answer") := by
  rintro ⟨d, llm, fs, h, ha⟩
  rcases generate_typ_cases d llm fs h with h1 | h1 <;> rw [h1] at ha <;>
    · injection ha with h2
      injection h2 with h3
      exact absurd h3 (by decide)

/-- C9 (amended): the generate operation's result is a two-way tagged union —
kind `sql` and kind `clarification` are both reachable on concrete model
outputs, and kind `answer` does not exist: no result ever carries
`type = "answer"`. -/
theorem C9_two_way_union :
    generate_sql_or_clarification "gpt"
        (Except.ok "\x7b\"type\": \"sql\", \"sql\": \"SELECT 1\"\x7d")
      = Except.ok [("type", JVal.str "sql"), ("sql", JVal.str "SELECT 1")]
    ∧ generate_sql_or_clarification "gpt"
        (Except.ok "\x7b\"type\": \"clarification\", \"questions\": [\"Which table?\"]\x7d")
      = Except.ok [("type", JVal.str "clarification"),
          ("questions", JVal.arr [JVal.str "Which table?"])]
    ∧ ∀ (d : String) (llm : Except String String) (fs : List (String × JVal)),
        generate_sql_or_clarification d llm = Except.ok fs →
        pyDictGet fs "type" ≠ some (JVal.str "answer") := by
  refine ⟨rfl, rfl, fun d llm fs h ha => ?_⟩
  rcases generate_typ_cases d llm fs h with h1 | h1 <;> rw [h1] at ha <;>
    · injection ha with h2
      injection h2 with h3
      exact absurd h3 (by decide)

/-- Counterexample for C7: a driver exception raised during execution passes
straight out of `execute_sql_df` — the Execution Adapter has no
`try`/`except`, so the exception is raised past its boundary (the catch lives
one level up, in the Turn Controller's `run_flow`). -/
theorem C7_adapter_counterexample :
    execute_sql_df "sqlite" dbBoomQuery dbBoomExec "select * from x" 500
      = Except.error "no such table: x" := rfl

theorem run_flow_pre_or_stage (question : String) (do_execute : Bool) (hits : List Hit)
    (ts : List (String × List String)) (dialect : String) (debug : Bool)
    (gen : GenObj) (fix : String → GenObj) (execF : String → Except String String) :
    (run_flow question do_execute hits ts dialect debug gen fix execF).2.1 = []
    ∨ ∃ sql1 log3, run_flow question do_execute hits ts dialect debug gen fix execF
        = exec_stage ts dialect (build_context hits ts dialect 10).2 fix execF sql1 log3 := by
  unfold run_flow
  dsimp only
  repeat' split
  all_goals first
    | exact Or.inl rfl
    | exact Or.inr ⟨_, _, rfl⟩

theorem exec_stage_bound (ts : List (String × List String)) (dialect : String)
    (known : List String) (fix : String → GenObj) (execF : String → Except String String)
    (sql1 : String) (log3 : List String) (f : String → String)
    (hfail : ∀ s, execF s = Except.error (f s)) :
    (exec_stage ts dialect known fix execF sql1 log3).2.1.length ≤ 2 ∧
    ∀ la, (exec_stage ts dialect known fix execF sql1 log3).2.1.getLast? = some la →
      ∃ line, line ∈ (exec_stage ts dialect known fix execF sql1 log3).2.2
        ∧ ∃ pre post, line = pre ++ f la ++ post := by
  unfold exec_stage
  simp only [hfail]
  repeat' split
  all_goals refine ⟨by simp, fun la hla => ?_⟩
  all_goals simp at hla
  all_goals first
    | (refine ⟨"[3] Execution error: " ++ f la, ?_,
          "[3] Execution error: ", "", by rw [strAppend_empty]⟩
       simp [hla]
       done)
    | (refine ⟨"[4] Corrected SQL failed: " ++ f la, ?_,
          "[4] Corrected SQL failed: ", "", by rw [strAppend_empty]⟩
       simp [hla]
       done)

theorem exec_stage_logs (ts : List (String × List String)) (dialect : String)
    (known : List String) (fix : String → GenObj) (execF : String → Except String String)
    (sql1 : String) (log3 : List String) (f : String → String)
    (hfail : ∀ s, execF s = Except.error (f s)) :
    ∀ s ∈ (exec_stage ts dialect known fix execF sql1 log3).2.1,
      ("[3] Execution error: " ++ f s) ∈ (exec_stage ts dialect known fix execF sql1 log3).2.2
      ∨ ("[4] Corrected SQL failed: " ++ f s)
          ∈ (exec_stage ts dialect known fix execF sql1 log3).2.2 := by
  unfold exec_stage
  simp only [hfail]
  repeat' split
  all_goals intro s hs
  all_goals simp at hs
  all_goals first
    | (refine Or.inl ?_
       simp [hs]
       done)
    | (rcases hs with hs | hs
       · refine Or.inl ?_
         simp [hs]
         done
       · refine Or.inr ?_
         simp [hs]
         done)

/-- C2: for every turn whose SQL always fails execution, the Turn Controller
makes at most 2 execution attempts (1 initial + 1 repair), terminates (the
embedding is a total function), and the last database error message appears
verbatim inside a surfaced log line. -/
theorem C2_attempt_bound (question : String) (do_execute : Bool) (hits : List Hit)
    (ts : List (String × List String)) (dialect : String) (debug : Bool)
    (gen : GenObj) (fix : String → GenObj) (execF : String → Except String String)
    (f : String → String) (hfail : ∀ s, execF s = Except.error (f s)) :
    (run_flow question do_execute hits ts dialect debug gen fix execF).2.1.length ≤ 2 ∧
    ∀ la, (run_flow question do_execute hits ts dialect debug gen fix execF).2.1.getLast?
        = some la →
      ∃ line, line ∈ (run_flow question do_execute hits ts dialect debug gen fix execF).2.2
        ∧ ∃ pre post, line = pre ++ f la ++ post := by
  rcases run_flow_pre_or_stage question do_execute hits ts dialect debug gen fix execF with
    h | ⟨sql1, log3, heq⟩
  · rw [h]
    exact ⟨by simp, fun la hla => by simp at hla⟩
  · rw [heq]
    exact exec_stage_bound ts dialect _ fix execF sql1 log3 f hfail

/-- Witness for C2 at a concrete always-failing executor: one attempt is made,
and the error `boom` is surfaced verbatim in a log line. -/
theorem C2_attempt_bound_witness :
    (run_flow "q" true [] schemaT "sqlite" false genSqlT fixClarT
        (fun _ => Except.error "boom")).2.1.length ≤ 2
    ∧ ∃ line, line ∈ (run_flow "q" true [] schemaT "sqlite" false genSqlT fixClarT
        (fun _ => Except.error "boom")).2.2
      ∧ ∃ pre post, line = pre ++ "boom" ++ post :=
  ⟨(C2_attempt_bound "q" true [] schemaT "sqlite" false genSqlT fixClarT
      (fun _ => Except.error "boom") (fun _ => "boom") (fun _ => rfl)).1,
   (C2_attempt_bound "q" true [] schemaT "sqlite" false genSqlT fixClarT
      (fun _ => Except.error "boom") (fun _ => "boom") (fun _ => rfl)).2
     "select a from t x" (by decide)⟩

/-- C7 (amended): the catch for driver exceptions lives in the Turn
Controller, not the Execution Adapter — for every SQL the controller passed
to execution whose run raised an exception, `run_flow` converts the exception
to a string and logs it verbatim (as `[3] Execution error: ...` or
`[4] Corrected SQL failed: ...`), returning a normal outcome instead of
propagating. -/
theorem C7_controller_catches (question : String) (do_execute : Bool) (hits : List Hit)
    (ts : List (String × List String)) (dialect : String) (debug : Bool)
    (gen : GenObj) (fix : String → GenObj) (execF : String → Except String String)
    (f : String → String) (hfail : ∀ s, execF s = Except.error (f s)) :
    ∀ s ∈ (run_flow question do_execute hits ts dialect debug gen fix execF).2.1,
      ("[3] Execution error: " ++ f s)
          ∈ (run_flow question do_execute hits ts dialect debug gen fix execF).2.2
      ∨ ("[4] Corrected SQL failed: " ++ f s)
          ∈ (run_flow question do_execute hits ts dialect debug gen fix execF).2.2 := by
  rcases run_flow_pre_or_stage question do_execute hits ts dialect debug gen fix execF with
    h | ⟨sql1, log3, heq⟩
  · rw [h]
    intro s hs
    simp at hs
  · rw [heq]
    exact exec_stage_logs ts dialect _ fix execF sql1 log3 f hfail

/-- Witness for C7 at a concrete raising executor. -/
theorem C7_controller_catches_witness :
    ("[3] Execution error: boom") ∈ (run_flow "q" true [] schemaT "sqlite" false genSqlT
        fixClarT (fun _ => Except.error "boom")).2.2
    ∨ ("[4] Corrected SQL failed: boom") ∈ (run_flow "q" true [] schemaT "sqlite" false
        genSqlT fixClarT (fun _ => Except.error "boom")).2.2 :=
  C7_controller_catches "q" true [] schemaT "sqlite" false genSqlT fixClarT
    (fun _ => Except.error "boom") (fun _ => "boom") (fun _ => rfl)
    "select a from t x" (by decide)

/-- Counterexample for C4: the statement `select * from t\nlimit 5` already
contains a row-limiting clause (the standalone word `limit`), yet a single
application of `apply_preview_limit` appends another `LIMIT 500` — the code's
"already contains one" guard is the literal substring `" limit "` (space on
both sides), which misses a clause preceded by a newline. -/
theorem C4_guard_counterexample :
    contains_limit_word "select * from t\nlimit 5" = true
    ∧ apply_preview_limit "sqlite" 500 "select * from t\nlimit 5"
        = "select * from t\nlimit 5 LIMIT 500" := ⟨rfl, rfl⟩

/-- C4 (amended): row-limit injection is idempotent for every SQL string,
dialect and row cap; for query-like sqlite statements the injection is guarded
by the textual check that approximates "already contains a limiting clause":
the statement is returned unchanged when its lowered text contains the
substring `" limit "`, and gets ` LIMIT n` appended otherwise. -/
theorem C4_limit_idempotent (dialect : String) (n : Nat) (s : String) :
    apply_preview_limit dialect n (apply_preview_limit dialect n s)
      = apply_preview_limit dialect n s
    ∧ (dialect = "sqlite" → isQueryLike s = true →
      (containsSub (pyLStrip (pyLower s)) " limit " = true →
        apply_preview_limit dialect n s = s)
      ∧ (containsSub (pyLStrip (pyLower s)) " limit " = false →
        apply_preview_limit dialect n s = s ++ " LIMIT " ++ toString n)) := by
  constructor
  · by_cases hq : (pyStartsWith (pyLStrip (pyLower s)) "select"
        || pyStartsWith (pyLStrip (pyLower s)) "with") = true
    case neg =>
      have hfs := apl_not_query dialect n s (by simpa using hq)
      rw [hfs]
      exact hfs
    case pos =>
      by_cases hsq : dialect = "sqlite"
      · subst hsq
        by_cases hc : containsSub (pyLStrip (pyLower s)) " limit " = true
        · have hfs := apl_sqlite_contains n s hq hc
          rw [hfs]
          exact hfs
        · have hc' : containsSub (pyLStrip (pyLower s)) " limit " = false := by simpa using hc
          have hfs := apl_sqlite_inject n s hq hc'
          have hne : (pyLStrip (pyLower s)).data ≠ [] := by
            intro h0
            have hq' : pyStartsWith (pyLStrip (pyLower s)) "select" = true
                ∨ pyStartsWith (pyLStrip (pyLower s)) "with" = true := by simpa using hq
            rcases hq' with hx | hx
            · unfold pyStartsWith at hx
              rw [h0] at hx
              exact absurd hx (by decide)
            · unfold pyStartsWith at hx
              rw [h0] at hx
              exact absurd hx (by decide)
          have hdata := low_append s (" LIMIT " ++ toString n) hne
          have hlow : lowerL ((" LIMIT " ++ toString n) : String).data
              = (" limit " : String).data ++ lowerL (toString n : String).data := by
            rw [strData_append, lowerL_append]
            congr 1
          have hq2 : (pyStartsWith (pyLStrip (pyLower (s ++ (" LIMIT " ++ toString n)))) "select"
              || pyStartsWith (pyLStrip (pyLower (s ++ (" LIMIT " ++ toString n)))) "with")
                = true := by
            have hq' : pyStartsWith (pyLStrip (pyLower s)) "select" = true
                ∨ pyStartsWith (pyLStrip (pyLower s)) "with" = true := by simpa using hq
            rcases hq' with hx | hx
            · have hx2 : pyStartsWith (pyLStrip (pyLower (s ++ (" LIMIT " ++ toString n))))
                  "select" = true := by
                unfold pyStartsWith
                rw [hdata]
                exact isPre_append _ _ _ hx
              simp [hx2]
            · have hx2 : pyStartsWith (pyLStrip (pyLower (s ++ (" LIMIT " ++ toString n))))
                  "with" = true := by
                unfold pyStartsWith
                rw [hdata]
                exact isPre_append _ _ _ hx
              simp [hx2]
          have hc2 : containsSub (pyLStrip (pyLower (s ++ (" LIMIT " ++ toString n))))
              " limit " = true := by
            unfold containsSub
            rw [hdata, hlow, ← List.append_assoc, List.append_assoc]
            exact containsSubL_mid _ _ _
          calc apply_preview_limit "sqlite" n (apply_preview_limit "sqlite" n s)
              = apply_preview_limit "sqlite" n (s ++ (" LIMIT " ++ toString n)) := by
                rw [hfs, strAppend_assoc]
            _ = s ++ (" LIMIT " ++ toString n) := apl_sqlite_contains n _ hq2 hc2
            _ = s ++ " LIMIT " ++ toString n := (strAppend_assoc s " LIMIT " (toString n)).symm
            _ = apply_preview_limit "sqlite" n s := hfs.symm
      · by_cases hms : dialect = "mssql" ∨ dialect = "mssql+pymssql" ∨ dialect = "mssql+pyodbc"
        · by_cases ht : hasWordTop (pyLStrip (pyLower s)) = true
          · have hfs := apl_mssql_top dialect n s hms ht
            rw [hfs]
            exact hfs
          · have ht' : hasWordTop (pyLStrip (pyLower s)) = false := by simpa using ht
            rcases hm : matchSelectDistinct s with _ | ⟨g, r⟩
            · have hfs := apl_mssql_none dialect n s hms ht' hm
              rw [hfs]
              exact hfs
            · have hfs := apl_mssql_inject dialect n s g r hms hq ht' hm
              have e1 : lowerL ("SELECT " : String).data = ("select " : String).data := by decide
              have e2 : lowerL ("TOP (" : String).data = ("top (" : String).data := by decide
              have e3 : lowerL (") " : String).data = (") " : String).data := by decide
              have hdat : (pyLower ("SELECT " ++ g ++ "TOP (" ++ toString n ++ ") " ++ r)).data
                  = ("select " : String).data ++ (lowerL g.data ++ (("top (" : String).data
                    ++ (lowerL (toString n : String).data ++ ((") " : String).data
                      ++ lowerL r.data)))) := by
                rw [pyLower_data]
                simp only [strData_append, lowerL_append, List.append_assoc]
                rw [e1, e2, e3]
              have hld : (pyLStrip (pyLower ("SELECT " ++ g ++ "TOP (" ++ toString n
                  ++ ") " ++ r))).data
                  = (pyLower ("SELECT " ++ g ++ "TOP (" ++ toString n ++ ") " ++ r)).data := by
                rw [pyLStrip_data, hdat]
                rfl
              have ht2 : hasWordTop (pyLStrip (pyLower ("SELECT " ++ g ++ "TOP ("
                  ++ toString n ++ ") " ++ r))) = true := by
                unfold hasWordTop
                rw [hld, hdat]
                rw [show (("top (" : String).data
                    ++ (lowerL (toString n : String).data ++ ((") " : String).data
                      ++ lowerL r.data)))
                  = 't' :: 'o' :: 'p' :: ' ' :: ('(' :: (lowerL (toString n : String).data
                      ++ ((") " : String).data ++ lowerL r.data))) from rfl]
                rw [← List.append_assoc]
                apply hasTopGo_mid
                · rw [lastOk_append]
                  rw [show lastOk ("select " : String).data true = true from by decide]
                  rcases matchSelectDistinct_shape s g r hm with hg0 | ⟨l, c, hgd, hcsp⟩
                  · rw [hg0]
                    rfl
                  · rw [hgd]
                    rw [show lowerL (l ++ [c]) = lowerL l ++ [Char.toLower c] from by
                      simp [lowerL]]
                    rw [lastOk_append]
                    obtain ⟨hcl, hcw⟩ := pyIsSpace_facts c hcsp
                    rw [hcl]
                    simp [lastOk, hcw]
                · decide
              rw [hfs]
              exact apl_mssql_top dialect n _ hms ht2
        · have h2 : (dialect = "mssql" || dialect = "mssql+pymssql"
              || dialect = "mssql+pyodbc") = false := by
            simp only [not_or] at hms
            simp [hms.1, hms.2.1, hms.2.2]
          have hfs := apl_other dialect n s hsq h2
          rw [hfs]
          exact hfs
  · intro hd hq
    subst hd
    exact ⟨fun hc => apl_sqlite_contains n s (by simpa [isQueryLike] using hq) hc,
           fun hc => apl_sqlite_inject n s (by simpa [isQueryLike] using hq) hc⟩

/-- Witness for C4 at a concrete query: the limit is injected once and a
second application changes nothing. -/
theorem C4_limit_idempotent_witness :
    apply_preview_limit "sqlite" 500 (apply_preview_limit "sqlite" 500 "select a from t")
        = apply_preview_limit "sqlite" 500 "select a from t"
    ∧ apply_preview_limit "sqlite" 500 "select a from t"
        = "select a from t" ++ " LIMIT " ++ toString 500 :=
  ⟨(C4_limit_idempotent "sqlite" 500 "select a from t").1,
   ((C4_limit_idempotent "sqlite" 500 "select a from t").2 rfl (by decide)).2 (by decide)⟩

/-- Witness for C9 applying the no-`answer` conjunct at a concrete generated
result. -/
theorem C9_two_way_union_witness :
    pyDictGet [("type", JVal.str "sql"), ("sql", JVal.str "SELECT 1")] "type"
      ≠ some (JVal.str "answer") :=
  C9_two_way_union.2.2 "gpt" (Except.ok "\x7b\"type\": \"sql\", \"sql\": \"SELECT 1\"\x7d")
    [("type", JVal.str "sql"), ("sql", JVal.str "SELECT 1")] C9_two_way_union.1
